import Mathlib

/-!
Verification of the double-pendulum simulator.

The repository contains three variants of the same physics core:

* an inline dynamics engine in the per-frame callback `drawFrame`
  (src/unnamed/part_000 and the richer copy in src/unnamed/part_001, which
  adds the stiffness coefficients `k1`, `k2`), together with the JS-remainder
  angle wrap applied after each step;
* a standalone pure function `updateState` (src/unnamed/part_001), which
  folds damping and stiffness into the acceleration numerators and does not
  wrap angles;
* a batch simulator `simulateDoublePendulum`
  (src/pendulum-linear-demo/src/simulate.ts) with no damping or stiffness.

All machine `number` arithmetic is embedded as real arithmetic; JavaScript's
`%` operator (a remainder that keeps the sign of the dividend, i.e. truncated
division) is modelled explicitly by `jsMod` below.
-/

noncomputable section

namespace DP

open Real

/-- Angular state of the double pendulum: the `State` interface of the source
(`theta1`, `theta2` absolute angles from the vertical, `dtheta1`, `dtheta2`
their angular velocities). -/
structure PState where
  theta1 : ℝ
  theta2 : ℝ
  dtheta1 : ℝ
  dtheta2 : ℝ

/-- Parameter record: the `Settings` interface of src/unnamed/part_001
(without the UI-only `speed` field, whose only effect is scaling `dt`).
The part_000 variant is the special case `k1 = k2 = 0`. -/
structure Params where
  m1 : ℝ
  m2 : ℝ
  L1 : ℝ
  L2 : ℝ
  g : ℝ
  damping : ℝ
  k1 : ℝ
  k2 : ℝ

/-- Drag selection, the `DragTarget` type of the source: `'m1' | 'm2' | null`. -/
inductive DragTarget where
  | none : DragTarget
  | m1 : DragTarget
  | m2 : DragTarget

/-- Truncation toward zero, the rounding used by JavaScript's `%` operator. -/
def jsTrunc (x : ℝ) : ℝ := if 0 ≤ x then (⌊x⌋ : ℤ) else (⌈x⌉ : ℤ)

/-- JavaScript's remainder `a % n`: `a - n * trunc (a / n)`, which keeps the
sign of the dividend `a` (unlike the mathematical modulus). -/
def jsMod (a n : ℝ) : ℝ := a - n * jsTrunc (a / n)

/-- The angle-wrap expression applied after each inline integration step:
`((t + Math.PI) % (2 * Math.PI)) - Math.PI` with JavaScript `%`. -/
def wrapAngle (t : ℝ) : ℝ := jsMod (t + π) (2 * π) - π

/-- Forward kinematics, `getBobPositions` in the source: `x1 = L1*sin(theta1)`. -/
def fkX1 (L1 : ℝ) (s : PState) : ℝ := L1 * Real.sin s.theta1

/-- `y1 = L1*cos(theta1)` (the canvas y-down convention of `getBobPositions`). -/
def fkY1 (L1 : ℝ) (s : PState) : ℝ := L1 * Real.cos s.theta1

/-- `x2 = x1 + L2*sin(theta2)`. -/
def fkX2 (L1 L2 : ℝ) (s : PState) : ℝ := fkX1 L1 s + L2 * Real.sin s.theta2

/-- `y2 = y1 + L2*cos(theta2)` (canvas convention). -/
def fkY2 (L1 L2 : ℝ) (s : PState) : ℝ := fkY1 L1 s + L2 * Real.cos s.theta2

/-- Numerator of `ddtheta1` in the inline `drawFrame` engine
(src/unnamed/part_001 lines 241-248; part_000 is the case `k1 = 0`). -/
def inlineNum1 (p : Params) (s : PState) : ℝ :=
  -p.g * (2 * p.m1 + p.m2) * Real.sin s.theta1
    - p.m2 * p.g * Real.sin (s.theta1 - 2 * s.theta2)
    - 2 * Real.sin (s.theta1 - s.theta2) * p.m2 *
        (s.dtheta2 ^ 2 * p.L2 + s.dtheta1 ^ 2 * p.L1 * Real.cos (s.theta1 - s.theta2))
    - p.k1 * s.theta1

/-- Numerator of `ddtheta2` in the inline `drawFrame` engine
(src/unnamed/part_001 lines 250-257): note the stiffness term is
`- k2 * (theta2 - theta1)`, not `- k2 * theta2`. -/
def inlineNum2 (p : Params) (s : PState) : ℝ :=
  2 * Real.sin (s.theta1 - s.theta2) *
      (s.dtheta1 ^ 2 * p.L1 * (p.m1 + p.m2)
        + p.g * (p.m1 + p.m2) * Real.cos s.theta1
        + s.dtheta2 ^ 2 * p.L2 * p.m2 * Real.cos (s.theta1 - s.theta2))
    - p.k2 * (s.theta2 - s.theta1)

/-- Denominator `denom = 2*m1 + m2 - m2*cos(2*delta)` of the inline engine. -/
def inlineDenom (p : Params) (s : PState) : ℝ :=
  2 * p.m1 + p.m2 - p.m2 * Real.cos (2 * (s.theta1 - s.theta2))

/-- `ddtheta1` of the inline engine. Damping does not appear here. -/
def inlineAccel1 (p : Params) (s : PState) : ℝ :=
  inlineNum1 p s / (p.L1 * inlineDenom p s)

/-- `ddtheta2` of the inline engine. Damping does not appear here. -/
def inlineAccel2 (p : Params) (s : PState) : ℝ :=
  inlineNum2 p s / (p.L2 * inlineDenom p s)

/-- One inline `drawFrame` integration step (src/unnamed/part_000 lines
136-141, src/unnamed/part_001 lines 259-264): semi-implicit Euler with the
damping term `- damping*dtheta` in the velocity update, followed by the JS
angle wrap on both angles. -/
def inlineStep (p : Params) (dt : ℝ) (s : PState) : PState :=
  let d1 := s.dtheta1 + (inlineAccel1 p s - p.damping * s.dtheta1) * dt
  let d2 := s.dtheta2 + (inlineAccel2 p s - p.damping * s.dtheta2) * dt
  ⟨wrapAngle (s.theta1 + d1 * dt), wrapAngle (s.theta2 + d2 * dt), d1, d2⟩

/-- Denominator `den` of `updateState` (src/unnamed/part_001 line 701):
`(m1 + m2) * L1 - m2 * L1 * cos(theta1-theta2) * cos(theta1-theta2)`. -/
def usDen (p : Params) (s : PState) : ℝ :=
  (p.m1 + p.m2) * p.L1
    - p.m2 * p.L1 * Real.cos (s.theta1 - s.theta2) * Real.cos (s.theta1 - s.theta2)

/-- Numerator of `ddtheta1` in `updateState` (src/unnamed/part_001 lines
703-711): gravity coefficient `(m1 + m2)` (not `2*m1 + m2`), with the
stiffness term `- k1*theta1` and the damping term `- damping*dtheta1`
folded into the numerator. -/
def usNum1 (p : Params) (s : PState) : ℝ :=
  -p.g * (p.m1 + p.m2) * Real.sin s.theta1
    - p.m2 * p.g * Real.sin (s.theta1 - 2 * s.theta2)
    - 2 * Real.sin (s.theta1 - s.theta2) * p.m2 *
        (s.dtheta2 * s.dtheta2 * p.L2
          + s.dtheta1 * s.dtheta1 * p.L1 * Real.cos (s.theta1 - s.theta2))
    - p.k1 * s.theta1
    - p.damping * s.dtheta1

/-- Numerator of `ddtheta2` in `updateState` (src/unnamed/part_001 lines
713-721), with `- k2*theta2` and `- damping*dtheta2` in the numerator. -/
def usNum2 (p : Params) (s : PState) : ℝ :=
  2 * Real.sin (s.theta1 - s.theta2) *
      (s.dtheta1 * s.dtheta1 * p.L1 * (p.m1 + p.m2)
        + p.g * (p.m1 + p.m2) * Real.cos s.theta1
        + s.dtheta2 * s.dtheta2 * p.L2 * p.m2 * Real.cos (s.theta1 - s.theta2))
    - p.k2 * s.theta2
    - p.damping * s.dtheta2

/-- `ddtheta1` of `updateState`. -/
def usAccel1 (p : Params) (s : PState) : ℝ := usNum1 p s / (p.L1 * usDen p s)

/-- `ddtheta2` of `updateState`. -/
def usAccel2 (p : Params) (s : PState) : ℝ := usNum2 p s / (p.L2 * usDen p s)

/-- The pure step function `updateState(state, dt, settings)` of
src/unnamed/part_001 lines 683-735: velocity update then position update from
the new velocity; no angle wrap. -/
def updateState (s : PState) (dt : ℝ) (p : Params) : PState :=
  let newDtheta1 := s.dtheta1 + usAccel1 p s * dt
  let newDtheta2 := s.dtheta2 + usAccel2 p s * dt
  ⟨s.theta1 + newDtheta1 * dt, s.theta2 + newDtheta2 * dt, newDtheta1, newDtheta2⟩

/-- JavaScript's `Math.atan2(a, b)` (first argument is the y-coordinate of
the standard convention; the source calls `Math.atan2(x, y)` to get the
angle from the vertical). -/
def jsAtan2 (a b : ℝ) : ℝ :=
  if 0 < b then Real.arctan (a / b)
  else if b < 0 then
    (if 0 ≤ a then Real.arctan (a / b) + π else Real.arctan (a / b) - π)
  else
    (if 0 < a then π / 2 else if a < 0 then -(π / 2) else 0)

/-- The bob-1 branch of the `onmousemove` drag handler (src/unnamed/part_000
lines 84-86, src/unnamed/part_001 lines 205-207): it assigns
`theta1 = Math.atan2(x, y)` and `dtheta1 = 0` and touches nothing else. -/
def resolveDragM1 (s : PState) (x y : ℝ) : PState :=
  ⟨jsAtan2 x y, s.theta2, 0, s.dtheta2⟩

/-- The clamp `Math.min(1, Math.max(-1, v))` guarding the `acos` arguments. -/
def clampUnit (v : ℝ) : ℝ := min 1 (max (-1) v)

/-- `clampedD = Math.min(L1 + L2, Math.max(Math.abs(L1 - L2), hypot(x, y)))`:
the reachability clamp of the two-link IK resolver. -/
def ikClampedD (L1 L2 x y : ℝ) : ℝ :=
  min (L1 + L2) (max |L1 - L2| (Real.sqrt (x ^ 2 + y ^ 2)))

/-- `cosA = (L1**2 + clampedD**2 - L2**2) / (2 * L1 * clampedD)`. -/
def ikCosA (L1 L2 x y : ℝ) : ℝ :=
  (L1 ^ 2 + ikClampedD L1 L2 x y ^ 2 - L2 ^ 2) / (2 * L1 * ikClampedD L1 L2 x y)

/-- `A = Math.acos(clamp(cosA))`. -/
def ikA (L1 L2 x y : ℝ) : ℝ := Real.arccos (clampUnit (ikCosA L1 L2 x y))

/-- `cosB = (L1**2 + L2**2 - clampedD**2) / (2 * L1 * L2)`. -/
def ikCosB (L1 L2 x y : ℝ) : ℝ :=
  (L1 ^ 2 + L2 ^ 2 - ikClampedD L1 L2 x y ^ 2) / (2 * L1 * L2)

/-- `B = Math.acos(clamp(cosB))`. -/
def ikB (L1 L2 x y : ℝ) : ℝ := Real.arccos (clampUnit (ikCosB L1 L2 x y))

/-- The bob-2 branch of the drag handler (src/unnamed/part_000 lines 87-102):
`theta1 = atan2(x, y) - A`, `theta2 = theta1 + (π - B)`, both velocities set
to zero. The current state is fully overwritten. -/
def resolveDragM2 (L1 L2 x y : ℝ) : PState :=
  let t1 := jsAtan2 x y - ikA L1 L2 x y
  ⟨t1, t1 + (π - ikB L1 L2 x y), 0, 0⟩

/-- Distance of bob 2 from the pivot, `hypot(x2, y2)` on forward kinematics. -/
def bob2Dist (L1 L2 : ℝ) (s : PState) : ℝ :=
  Real.sqrt (fkX2 L1 L2 s ^ 2 + fkY2 L1 L2 s ^ 2)

/-- Pick radius `r = Math.sqrt(m) * 0.5` used by the hit test. -/
def pickR (m : ℝ) : ℝ := Real.sqrt m * 0.5

/-- `dist1 = Math.hypot(x - x1, y - y1)`: pointer distance to bob 1. -/
def pickDist1 (p : Params) (s : PState) (x y : ℝ) : ℝ :=
  Real.sqrt ((x - fkX1 p.L1 s) ^ 2 + (y - fkY1 p.L1 s) ^ 2)

/-- `dist2 = Math.hypot(x - x2, y - y2)`: pointer distance to bob 2. -/
def pickDist2 (p : Params) (s : PState) (x y : ℝ) : ℝ :=
  Real.sqrt ((x - fkX2 p.L1 p.L2 s) ^ 2 + (y - fkY2 p.L1 p.L2 s) ^ 2)

/-- The `onmousedown` hit test (src/unnamed/part_000 lines 66-76):
`dist2 < r2 + 5 ? 'm2' : dist1 < r1 + 5 ? 'm1' : null`. -/
def hitTest (p : Params) (s : PState) (x y : ℝ) : DragTarget :=
  if pickDist2 p s x y < pickR p.m2 + 5 then DragTarget.m2
  else if pickDist1 p s x y < pickR p.m1 + 5 then DragTarget.m1
  else DragTarget.none

/-- The state that `drawFrame` holds after its conditional physics step: the
inline engine runs only when no drag is active. -/
def postState (p : Params) (dt : ℝ) (dragging : Bool) (s : PState) : PState :=
  if dragging then s else inlineStep p dt s

/-- The control flow of one `drawFrame` invocation after the physics step
(src/unnamed/part_000 lines 144-149): if `|x1| > 10000` or `|x2| > 10000` the
frame warns and returns early (`none`: no further frame is scheduled);
otherwise it renders and schedules the next frame with the new state. -/
def drawFrameTick (p : Params) (dt : ℝ) (dragging : Bool) (s : PState) : Option PState :=
  if 10000 < |fkX1 p.L1 (postState p dt dragging s)|
      ∨ 10000 < |fkX2 p.L1 p.L2 (postState p dt dragging s)| then none
  else some (postState p dt dragging s)

/-- Parameter record of `simulateDoublePendulum`
(src/pendulum-linear-demo/src/simulate.ts, `PendulumParams`). -/
structure SimParams where
  m1 : ℝ
  m2 : ℝ
  L1 : ℝ
  L2 : ℝ
  g : ℝ
  theta1 : ℝ
  theta2 : ℝ
  dtheta1 : ℝ
  dtheta2 : ℝ
  dt : ℝ
  steps : ℕ

/-- `ddtheta1` of the batch simulator's loop body (simulate.ts lines 25-29):
same formula as the inline engine with no damping and no stiffness. -/
def simAccel1 (p : SimParams) (s : PState) : ℝ :=
  (-p.g * (2 * p.m1 + p.m2) * Real.sin s.theta1
      - p.m2 * p.g * Real.sin (s.theta1 - 2 * s.theta2)
      - 2 * Real.sin (s.theta1 - s.theta2) * p.m2 *
          (s.dtheta2 ^ 2 * p.L2 + s.dtheta1 ^ 2 * p.L1 * Real.cos (s.theta1 - s.theta2)))
    / (p.L1 * (2 * p.m1 + p.m2 - p.m2 * Real.cos (2 * (s.theta1 - s.theta2))))

/-- `ddtheta2` of the batch simulator's loop body (simulate.ts lines 31-37). -/
def simAccel2 (p : SimParams) (s : PState) : ℝ :=
  (2 * Real.sin (s.theta1 - s.theta2) *
      (s.dtheta1 ^ 2 * p.L1 * (p.m1 + p.m2)
        + p.g * (p.m1 + p.m2) * Real.cos s.theta1
        + s.dtheta2 ^ 2 * p.L2 * p.m2 * Real.cos (s.theta1 - s.theta2)))
    / (p.L2 * (2 * p.m1 + p.m2 - p.m2 * Real.cos (2 * (s.theta1 - s.theta2))))

/-- One loop iteration of `simulateDoublePendulum` (simulate.ts lines 39-42):
semi-implicit Euler, velocities first, no wrap. -/
def simStep (p : SimParams) (s : PState) : PState :=
  let d1 := s.dtheta1 + simAccel1 p s * p.dt
  let d2 := s.dtheta2 + simAccel2 p s * p.dt
  ⟨s.theta1 + d1 * p.dt, s.theta2 + d2 * p.dt, d1, d2⟩

/-- Initial angular state taken from the parameter record. -/
def initState (p : SimParams) : PState := ⟨p.theta1, p.theta2, p.dtheta1, p.dtheta2⟩

/-- The recording loop of `simulateDoublePendulum` (simulate.ts lines 21-48):
each iteration steps the state and appends the downward-y forward-kinematics
positions `(L1*sin θ1, -L1*cos θ1, x1 + L2*sin θ2, y1 - L2*cos θ2)`. -/
def simRun (p : SimParams) : ℕ → PState → List ℝ × List ℝ × List ℝ × List ℝ
  | 0, _ => ([], [], [], [])
  | n + 1, s =>
      let s2 := simStep p s
      let r := simRun p n s2
      (p.L1 * Real.sin s2.theta1 :: r.1,
       -p.L1 * Real.cos s2.theta1 :: r.2.1,
       (p.L1 * Real.sin s2.theta1 + p.L2 * Real.sin s2.theta2) :: r.2.2.1,
       (-p.L1 * Real.cos s2.theta1 - p.L2 * Real.cos s2.theta2) :: r.2.2.2)

/-- `simulateDoublePendulum(p)`: run `p.steps` iterations from the initial
state and return the four position traces `[x1, y1, x2, y2]`. -/
def simulateDoublePendulum (p : SimParams) : List ℝ × List ℝ × List ℝ × List ℝ :=
  simRun p p.steps (initState p)

/-! ### Helper lemmas about the JS angle wrap -/

/-- Range of the JS wrap: the wrapped angle always lies strictly between
`-3π` and `π` (the classic half-open `[-π, π)` holds only when the dividend
`t + π` is nonnegative, because the JS remainder keeps the dividend's sign). -/
theorem wrapAngle_mem (t : ℝ) : -(3 * π) < wrapAngle t ∧ wrapAngle t < π := by
  have hπ : (0 : ℝ) < π := Real.pi_pos
  have h2π : (0 : ℝ) < 2 * π := by linarith
  have hne : (2 : ℝ) * π ≠ 0 := ne_of_gt h2π
  unfold wrapAngle jsMod jsTrunc
  set q : ℝ := (t + π) / (2 * π) with hq
  have hqe : t + π = 2 * π * q := by
    rw [hq, mul_div_cancel₀ _ hne]
  by_cases h0 : 0 ≤ q
  · rw [if_pos h0]
    have hf1 : ((⌊q⌋ : ℤ) : ℝ) ≤ q := Int.floor_le q
    have hf2 : q - 1 < ((⌊q⌋ : ℤ) : ℝ) := Int.sub_one_lt_floor q
    have hu : 2 * π * q - 2 * π * ((⌊q⌋ : ℤ) : ℝ) < 2 * π := by nlinarith
    have hl : 0 ≤ 2 * π * q - 2 * π * ((⌊q⌋ : ℤ) : ℝ) := by nlinarith
    constructor <;> nlinarith
  · rw [if_neg h0]
    have hc1 : q ≤ ((⌈q⌉ : ℤ) : ℝ) := Int.le_ceil q
    have hc2 : ((⌈q⌉ : ℤ) : ℝ) < q + 1 := Int.ceil_lt_add_one q
    have hu : 2 * π * q - 2 * π * ((⌈q⌉ : ℤ) : ℝ) ≤ 0 := by nlinarith
    have hl : -(2 * π) < 2 * π * q - 2 * π * ((⌈q⌉ : ℤ) : ℝ) := by nlinarith
    constructor <;> nlinarith

/-- The JS wrap sends the angle `π` to `-π`, leaving the claimed interval
`(-π, π]`. -/
theorem wrapAngle_pi : wrapAngle π = -π := by
  have hπ : (0 : ℝ) < π := Real.pi_pos
  have hne : (2 : ℝ) * π ≠ 0 := by positivity
  unfold wrapAngle jsMod jsTrunc
  have hq : (π + π) / (2 * π) = 1 := by
    rw [div_eq_one_iff_eq hne]; ring
  rw [hq, if_pos (by norm_num : (0:ℝ) ≤ 1)]
  have : ⌊(1 : ℝ)⌋ = 1 := Int.floor_one
  rw [this]
  push_cast
  ring

/-! ### Claim C1: angle wrap invariant -/

/-- Claim C1, counterexample: the claim says post-step `theta1` lies in the
half-open interval `(-π, π]`, but starting from `theta1 = π` with `dt = 0`
the inline engine's JS wrap returns `theta1 = -π`, which is outside
`(-π, π]`. -/
theorem c1_counterexample :
    (inlineStep ⟨1, 1, 1, 1, 10, 0, 0, 0⟩ 0 ⟨π, 0, 0, 0⟩).theta1 ∉ Set.Ioc (-π) π := by
  have h : (inlineStep ⟨1, 1, 1, 1, 10, 0, 0, 0⟩ 0 ⟨π, 0, 0, 0⟩).theta1 = -π := by
    simp only [inlineStep, mul_zero, add_zero]
    exact wrapAngle_pi
  rw [h, Set.mem_Ioc]
  simp

/-- Claim C1, amended: after one inline `drawFrame` step both returned angles
lie in the open interval `(-3π, π)` (the wrap yields `[-π, π)` whenever the
pre-wrap angle is at least `-π`, and returns more negative angles unchanged,
because the JS remainder keeps the sign of its dividend); the `updateState`
variant performs no wrapping at all. -/
theorem c1_theorem (p : Params) (dt : ℝ) (s : PState) :
    (inlineStep p dt s).theta1 ∈ Set.Ioo (-(3 * π)) π ∧
    (inlineStep p dt s).theta2 ∈ Set.Ioo (-(3 * π)) π := by
  constructor
  · rw [Set.mem_Ioo]
    exact wrapAngle_mem _
  · rw [Set.mem_Ioo]
    exact wrapAngle_mem _

/-! ### Claim C2: integration scheme -/

/-- Claim C2, counterexample: `updateState` does not apply the claimed
velocity update `dtheta1' = dtheta1 + (ddtheta1 - damping*dtheta1) * dt`.
With `m1 = m2 = 1`, `L1 = 2`, `L2 = 1`, `g = 5`, `damping = 1`, state
`theta1 = theta2 = 0, dtheta1 = 1, dtheta2 = 0` and `dt = 1`, its computed
acceleration is `ddtheta1 = -1/4` and it returns `dtheta1' = 3/4`, while the
claimed formula gives `-1/4`. -/
theorem c2_counterexample :
    (updateState ⟨0, 0, 1, 0⟩ 1 ⟨1, 1, 2, 1, 5, 1, 0, 0⟩).dtheta1 ≠
      (PState.mk 0 0 1 0).dtheta1 +
        (usAccel1 ⟨1, 1, 2, 1, 5, 1, 0, 0⟩ ⟨0, 0, 1, 0⟩
          - (Params.mk 1 1 2 1 5 1 0 0).damping * (PState.mk 0 0 1 0).dtheta1) * 1 := by
  have ha : usAccel1 ⟨1, 1, 2, 1, 5, 1, 0, 0⟩ ⟨0, 0, 1, 0⟩ = -(1 / 4) := by
    simp only [usAccel1, usNum1, usDen]
    norm_num
  simp only [updateState, ha]
  norm_num

/-- Claim C2, amended: the inline `drawFrame` engine follows exactly the
claimed semi-implicit scheme — velocity updated first from the damping-free
acceleration with the separate `- damping*dtheta` term, then the angle from
the already-updated velocity (before wrapping). The `updateState` variant
also updates velocity first and position from the new velocity, but folds
`- damping*dtheta` into the acceleration numerator instead of a separate
velocity-update term, so its velocity update is `dtheta + ddtheta*dt`. -/
theorem c2_theorem (p : Params) (dt : ℝ) (s : PState) :
    (inlineStep p dt s).dtheta1
        = s.dtheta1 + (inlineAccel1 p s - p.damping * s.dtheta1) * dt ∧
    (inlineStep p dt s).dtheta2
        = s.dtheta2 + (inlineAccel2 p s - p.damping * s.dtheta2) * dt ∧
    (inlineStep p dt s).theta1
        = wrapAngle (s.theta1 + (inlineStep p dt s).dtheta1 * dt) ∧
    (inlineStep p dt s).theta2
        = wrapAngle (s.theta2 + (inlineStep p dt s).dtheta2 * dt) ∧
    (updateState s dt p).dtheta1 = s.dtheta1 + usAccel1 p s * dt ∧
    (updateState s dt p).dtheta2 = s.dtheta2 + usAccel2 p s * dt ∧
    (updateState s dt p).theta1 = s.theta1 + (updateState s dt p).dtheta1 * dt ∧
    (updateState s dt p).theta2 = s.theta2 + (updateState s dt p).dtheta2 * dt :=
  ⟨rfl, rfl, rfl, rfl, rfl, rfl, rfl, rfl⟩

/-! ### Claim C3: stiffness terms -/

/-- Claim C3, counterexample: in the inline engine the `ddtheta2` numerator
does not contain the additive term `- k2 * theta2`. At
`theta1 = theta2 = 1`, `k2 = 2` (all velocities zero) the numerator equals
`0`, but removing the stiffness contribution and adding `- k2 * theta2`
would give `-2`. -/
theorem c3_counterexample :
    inlineNum2 ⟨1, 1, 1, 1, 1, 0, 0, 2⟩ ⟨1, 1, 0, 0⟩ ≠
      inlineNum2 ⟨1, 1, 1, 1, 1, 0, 0, 0⟩ ⟨1, 1, 0, 0⟩
        - (Params.mk 1 1 1 1 1 0 0 2).k2 * (PState.mk 1 1 0 0).theta2 := by
  simp only [inlineNum2]
  norm_num

/-- Claim C3, amended: `updateState` carries the claimed additive restoring
torques `- k1*theta1` and `- k2*theta2` in its acceleration numerators, and
the inline engine carries `- k1*theta1` in the `ddtheta1` numerator, but its
second stiffness term is `- k2*(theta2 - theta1)`, not `- k2*theta2`.
(Setting the coefficient to zero removes exactly that additive term.) -/
theorem c3_theorem (p : Params) (s : PState) :
    usNum1 p s
        = usNum1 ⟨p.m1, p.m2, p.L1, p.L2, p.g, p.damping, 0, p.k2⟩ s
            - p.k1 * s.theta1 ∧
    usNum2 p s
        = usNum2 ⟨p.m1, p.m2, p.L1, p.L2, p.g, p.damping, p.k1, 0⟩ s
            - p.k2 * s.theta2 ∧
    inlineNum1 p s
        = inlineNum1 ⟨p.m1, p.m2, p.L1, p.L2, p.g, p.damping, 0, p.k2⟩ s
            - p.k1 * s.theta1 ∧
    inlineNum2 p s
        = inlineNum2 ⟨p.m1, p.m2, p.L1, p.L2, p.g, p.damping, p.k1, 0⟩ s
            - p.k2 * (s.theta2 - s.theta1) := by
  refine ⟨?_, ?_, ?_, ?_⟩ <;>
    simp only [usNum1, usNum2, inlineNum1, inlineNum2] <;> ring

/-! ### Claim C4: drag bob1 round-trip -/

/-- Claim C4, counterexample: grabbing bob 1 does not zero `dtheta2`. With a
prior state whose `dtheta2 = 5`, the bob-1 drag branch leaves `dtheta2 = 5`,
contradicting the claimed `dtheta2 = 0` after the drag. -/
theorem c4_counterexample :
    (resolveDragM1 ⟨0, 0, 0, 5⟩ 1 1).dtheta2 ≠ 0 := by
  simp only [resolveDragM1]
  norm_num

/-- Claim C4, amended: resolving a drag with target bob1 sets `theta1` to
exactly `atan2(x, y)` and `dtheta1` to `0`, and leaves both `theta2` and
`dtheta2` unchanged (the velocity of link 2 is not zeroed). -/
theorem c4_theorem (s : PState) (x y : ℝ) :
    (resolveDragM1 s x y).theta1 = jsAtan2 x y ∧
    (resolveDragM1 s x y).theta2 = s.theta2 ∧
    (resolveDragM1 s x y).dtheta1 = 0 ∧
    (resolveDragM1 s x y).dtheta2 = s.dtheta2 :=
  ⟨rfl, rfl, rfl, rfl⟩

/-! ### Claim C5: drag bob2 reachability -/

/-- The acos guard clamp really lands in `[-1, 1]`. -/
theorem clampUnit_mem (v : ℝ) : -1 ≤ clampUnit v ∧ clampUnit v ≤ 1 := by
  unfold clampUnit
  exact ⟨le_min (by norm_num) (le_max_left _ _), min_le_left _ _⟩

/-- Claim C5: for any pointer `(x, y)` and positive lengths, the state
produced by the two-link IK resolver places bob 2 at a distance from the
pivot inside `[|L1 - L2|, L1 + L2]`; the pre-clamped `acos` arguments make
the resolver total, so no pointer position can make it fail. -/
theorem c5_theorem (L1 L2 x y : ℝ) (s : PState) (hL1 : 0 < L1) (hL2 : 0 < L2) :
    s = resolveDragM2 L1 L2 x y →
      |L1 - L2| ≤ bob2Dist L1 L2 s ∧ bob2Dist L1 L2 s ≤ L1 + L2 := by
  intro hs
  obtain ⟨hc1, hc2⟩ := clampUnit_mem (ikCosB L1 L2 x y)
  set c : ℝ := clampUnit (ikCosB L1 L2 x y) with hc
  have h21 : s.theta2 - s.theta1 = π - Real.arccos c := by
    rw [hs]
    simp only [resolveDragM2, ikB, hc]
    ring
  have hcos : Real.cos (s.theta1 - s.theta2) = -c := by
    have : s.theta1 - s.theta2 = -(π - Real.arccos c) := by
      rw [← h21]; ring
    rw [this, Real.cos_neg, Real.cos_pi_sub, Real.cos_arccos hc1 hc2]
  have hD : fkX2 L1 L2 s ^ 2 + fkY2 L1 L2 s ^ 2 = L1 ^ 2 + L2 ^ 2 - 2 * L1 * L2 * c := by
    have hexp : fkX2 L1 L2 s ^ 2 + fkY2 L1 L2 s ^ 2
        = L1 ^ 2 + L2 ^ 2 + 2 * L1 * L2 * Real.cos (s.theta1 - s.theta2) := by
      simp only [fkX2, fkY2, fkX1, fkY1, Real.cos_sub]
      linear_combination (L1 ^ 2) * Real.sin_sq_add_cos_sq s.theta1
        + (L2 ^ 2) * Real.sin_sq_add_cos_sq s.theta2
    rw [hexp, hcos]; ring
  have hLL : 0 < L1 * L2 := mul_pos hL1 hL2
  have hsq1 : (L1 - L2) ^ 2 ≤ fkX2 L1 L2 s ^ 2 + fkY2 L1 L2 s ^ 2 := by
    rw [hD]; nlinarith
  have hsq2 : fkX2 L1 L2 s ^ 2 + fkY2 L1 L2 s ^ 2 ≤ (L1 + L2) ^ 2 := by
    rw [hD]; nlinarith
  constructor
  · have h1 : |L1 - L2| = Real.sqrt ((L1 - L2) ^ 2) := (Real.sqrt_sq_eq_abs _).symm
    rw [h1]
    exact Real.sqrt_le_sqrt hsq1
  · have h2 : Real.sqrt ((L1 + L2) ^ 2) = L1 + L2 := Real.sqrt_sq (by linarith)
    calc bob2Dist L1 L2 s ≤ Real.sqrt ((L1 + L2) ^ 2) := Real.sqrt_le_sqrt hsq2
      _ = L1 + L2 := h2

/-- Claim C5, witness at `L1 = 2`, `L2 = 1`, pointer `(5, 0)` (an unreachable
target, snapped to distance 3). -/
theorem c5_witness :
    (0 : ℝ) < 2 ∧ (0 : ℝ) < 1 ∧
    |(2 : ℝ) - 1| ≤ bob2Dist 2 1 (resolveDragM2 2 1 5 0) ∧
    bob2Dist 2 1 (resolveDragM2 2 1 5 0) ≤ 2 + 1 :=
  ⟨by norm_num, by norm_num,
    (c5_theorem 2 1 5 0 (resolveDragM2 2 1 5 0) (by norm_num) (by norm_num) rfl).1,
    (c5_theorem 2 1 5 0 (resolveDragM2 2 1 5 0) (by norm_num) (by norm_num) rfl).2⟩

/-! ### Claim C6: divergence handling -/

/-- Claim C6: a `drawFrame` tick stops the simulation (reports the divergence
warning and schedules no further frame, modelled by `none`) exactly when the
post-step forward-kinematics positions satisfy `|x1| > 10000` or
`|x2| > 10000`; otherwise it hands the new state to the renderer and
schedules the next frame. -/
theorem c6_theorem (p : Params) (dt : ℝ) (dragging : Bool) (s : PState) :
    drawFrameTick p dt dragging s = none ↔
      (10000 < |fkX1 p.L1 (postState p dt dragging s)|
        ∨ 10000 < |fkX2 p.L1 p.L2 (postState p dt dragging s)|) := by
  unfold drawFrameTick
  split_ifs with h
  · simp [h]
  · simp [h]

/-! ### Claim C7: hit-test priority -/

/-- Claim C7: with pick radii `r_i = sqrt(m_i)*0.5`, the pointer-down hit
test selects bob 2 exactly when the pointer is within `r2 + 5` of bob 2,
selects bob 1 exactly when it is not within range of bob 2 but within
`r1 + 5` of bob 1, and otherwise selects nothing; in particular bob 2 wins
whenever both are in range. -/
theorem c7_theorem (p : Params) (s : PState) (x y : ℝ) :
    (hitTest p s x y = DragTarget.m2 ↔ pickDist2 p s x y < pickR p.m2 + 5) ∧
    (hitTest p s x y = DragTarget.m1 ↔
      ¬(pickDist2 p s x y < pickR p.m2 + 5) ∧ pickDist1 p s x y < pickR p.m1 + 5) ∧
    (hitTest p s x y = DragTarget.none ↔
      ¬(pickDist2 p s x y < pickR p.m2 + 5) ∧ ¬(pickDist1 p s x y < pickR p.m1 + 5)) := by
  unfold hitTest
  split_ifs with h1 h2
  · refine ⟨?_, ?_, ?_⟩ <;> simp [h1]
  · refine ⟨?_, ?_, ?_⟩ <;> simp [h1, h2]
  · refine ⟨?_, ?_, ?_⟩ <;> simp [h1, h2]

/-! ### Claim C8: engine-variant equivalence -/

/-- Claim C8, counterexample: even with `damping = k1 = k2 = 0` the two
engines disagree. At `m1 = m2 = 1`, `L1 = 2`, `L2 = 1`, `g = 1`,
`theta1 = theta2 = π/2` and zero velocities, the inline engine computes
`ddtheta1 = -1/2` while `updateState` computes `ddtheta1 = -1/4` (its
numerator uses `g*(m1+m2)` instead of `g*(2*m1+m2)`, and its denominator
already contains a factor `L1`). -/
theorem c8_counterexample :
    inlineAccel1 ⟨1, 1, 2, 1, 1, 0, 0, 0⟩ ⟨π / 2, π / 2, 0, 0⟩ ≠
      usAccel1 ⟨1, 1, 2, 1, 1, 0, 0, 0⟩ ⟨π / 2, π / 2, 0, 0⟩ := by
  have e2 : (π / 2 - 2 * (π / 2) : ℝ) = -(π / 2) := by ring
  have hin : inlineAccel1 ⟨1, 1, 2, 1, 1, 0, 0, 0⟩ ⟨π / 2, π / 2, 0, 0⟩ = -(1 / 2) := by
    simp only [inlineAccel1, inlineNum1, inlineDenom]
    rw [e2]
    norm_num [Real.sin_pi_div_two, Real.sin_neg]
  have hus : usAccel1 ⟨1, 1, 2, 1, 1, 0, 0, 0⟩ ⟨π / 2, π / 2, 0, 0⟩ = -(1 / 4) := by
    simp only [usAccel1, usNum1, usDen]
    rw [e2]
    norm_num [Real.sin_pi_div_two, Real.sin_neg]
  rw [hin, hus]
  norm_num

/-- Claim C8, amended: only the denominator forms are equivalent up to scale
— for every state and parameters, `L1 * (2*m1 + m2 - m2*cos(2*delta))` equals
`2 * ((m1+m2)*L1 - m2*L1*cos(delta)^2)`; the accelerations computed by the
two engines are nevertheless different in general (see the counterexample),
because the numerators and the residual scale factors do not match. -/
theorem c8_theorem (p : Params) (s : PState) :
    p.L1 * inlineDenom p s = 2 * usDen p s := by
  simp only [inlineDenom, usDen, Real.cos_two_mul]
  ring

/-! ### Claim C9: determinism and purity of the step -/

/-- Claim C9: `updateState` is deterministic — two calls with equal
`(state, dt, settings)` inputs return equal outputs; it consumes its inputs
as plain values (the source builds a fresh result object and never assigns
to its argument). -/
theorem c9_theorem (s s' : PState) (dt dt' : ℝ) (p p' : Params)
    (hs : s = s') (hdt : dt = dt') (hp : p = p') :
    updateState s dt p = updateState s' dt' p' := by
  rw [hs, hdt, hp]

/-- Claim C9, witness: two identical concrete calls agree. -/
theorem c9_witness :
    updateState ⟨1, 1, 0, 0⟩ 1 ⟨1, 1, 1, 1, 10, 0, 0, 0⟩ =
      updateState ⟨1, 1, 0, 0⟩ 1 ⟨1, 1, 1, 1, 10, 0, 0, 0⟩ :=
  c9_theorem ⟨1, 1, 0, 0⟩ ⟨1, 1, 0, 0⟩ 1 1
    ⟨1, 1, 1, 1, 10, 0, 0, 0⟩ ⟨1, 1, 1, 1, 10, 0, 0, 0⟩ rfl rfl rfl

/-! ### Claim C10: shape and contents of the batch simulator's output -/

/-- All four traces recorded by the loop have one entry per iteration. -/
theorem simRun_length (p : SimParams) :
    ∀ (n : ℕ) (s : PState),
      (simRun p n s).1.length = n ∧ (simRun p n s).2.1.length = n ∧
      (simRun p n s).2.2.1.length = n ∧ (simRun p n s).2.2.2.length = n := by
  intro n
  induction n with
  | zero => intro s; simp [simRun]
  | succ n ih =>
      intro s
      obtain ⟨h1, h2, h3, h4⟩ := ih (simStep p s)
      simp [simRun, h1, h2, h3, h4]

/-- The `i`-th recorded entries are the forward-kinematics positions of the
state reached after `i + 1` integration steps, in the downward-y convention. -/
theorem simRun_get (p : SimParams) :
    ∀ (n : ℕ) (s : PState) (i : ℕ), i < n →
      (simRun p n s).1[i]?
          = some (p.L1 * Real.sin ((simStep p)^[i + 1] s).theta1) ∧
      (simRun p n s).2.1[i]?
          = some (-p.L1 * Real.cos ((simStep p)^[i + 1] s).theta1) ∧
      (simRun p n s).2.2.1[i]?
          = some (p.L1 * Real.sin ((simStep p)^[i + 1] s).theta1
                    + p.L2 * Real.sin ((simStep p)^[i + 1] s).theta2) ∧
      (simRun p n s).2.2.2[i]?
          = some (-p.L1 * Real.cos ((simStep p)^[i + 1] s).theta1
                    - p.L2 * Real.cos ((simStep p)^[i + 1] s).theta2) := by
  intro n
  induction n with
  | zero => intro s i h; exact absurd h (Nat.not_lt_zero i)
  | succ n ih =>
      intro s i h
      match i with
      | 0 =>
          simp [simRun, Function.iterate_one]
      | j + 1 =>
          have hj : j < n := by omega
          obtain ⟨h1, h2, h3, h4⟩ := ih (simStep p s) j hj
          refine ⟨?_, ?_, ?_, ?_⟩ <;>
            simp only [simRun, List.getElem?_cons_succ, Function.iterate_succ_apply] <;>
            simp only [Function.iterate_succ_apply] at h1 h2 h3 h4 <;>
            assumption

/-- Claim C10: for any parameter record with `steps = n`, the batch simulator
returns four traces `x1, y1, x2, y2`, each of length exactly `n`, whose
`i`-th entries are the forward-kinematics positions after `i + 1` integration
steps with the downward-y convention `y1 = -L1*cos(theta1)`,
`y2 = y1 - L2*cos(theta2)`. -/
theorem c10_theorem (p : SimParams) :
    (simulateDoublePendulum p).1.length = p.steps ∧
    (simulateDoublePendulum p).2.1.length = p.steps ∧
    (simulateDoublePendulum p).2.2.1.length = p.steps ∧
    (simulateDoublePendulum p).2.2.2.length = p.steps ∧
    (∀ i, i < p.steps →
      (simulateDoublePendulum p).1[i]?
          = some (p.L1 * Real.sin ((simStep p)^[i + 1] (initState p)).theta1) ∧
      (simulateDoublePendulum p).2.1[i]?
          = some (-p.L1 * Real.cos ((simStep p)^[i + 1] (initState p)).theta1) ∧
      (simulateDoublePendulum p).2.2.1[i]?
          = some (p.L1 * Real.sin ((simStep p)^[i + 1] (initState p)).theta1
                    + p.L2 * Real.sin ((simStep p)^[i + 1] (initState p)).theta2) ∧
      (simulateDoublePendulum p).2.2.2[i]?
          = some (-p.L1 * Real.cos ((simStep p)^[i + 1] (initState p)).theta1
                    - p.L2 * Real.cos ((simStep p)^[i + 1] (initState p)).theta2)) := by
  obtain ⟨h1, h2, h3, h4⟩ := simRun_length p p.steps (initState p)
  exact ⟨h1, h2, h3, h4, fun i hi => simRun_get p p.steps (initState p) i hi⟩

/-- Claim C10, witness: one step from rest at the downward equilibrium with
unit lengths records `x1 = sin` and `y1 = -cos` of the stepped angle. -/
theorem c10_witness :
    (simulateDoublePendulum ⟨1, 1, 1, 1, 10, 0, 0, 0, 0, 1, 1⟩).1.length = 1 ∧
    (simulateDoublePendulum ⟨1, 1, 1, 1, 10, 0, 0, 0, 0, 1, 1⟩).1[0]?
        = some ((SimParams.mk 1 1 1 1 10 0 0 0 0 1 1).L1 *
            Real.sin ((simStep ⟨1, 1, 1, 1, 10, 0, 0, 0, 0, 1, 1⟩)^[0 + 1]
              (initState ⟨1, 1, 1, 1, 10, 0, 0, 0, 0, 1, 1⟩)).theta1) :=
  ⟨(c10_theorem ⟨1, 1, 1, 1, 10, 0, 0, 0, 0, 1, 1⟩).1,
    ((c10_theorem ⟨1, 1, 1, 1, 10, 0, 0, 0, 0, 1, 1⟩).2.2.2.2 0 (by decide)).1⟩

end DP

end
